import Mathlib

/-!
# Liner-cementing job calculator — verification of the calculation engine

Shallow embedding of `src/backend/app/engine.py` (the `PipeSection`
dataclass and `Engine.calculate`) and of the request model of
`src/backend/app/main.py` (the pydantic `CalcRequest` validation layer and
its `model_dump`).

Python floats are modelled as real numbers (`ℝ`), `math.pi` as `Real.pi`.
The payload dictionary handed to `Engine.calculate` is modelled as an
association list from string keys to JSON-like values; Python exceptions
(`KeyError`, `TypeError`, `ValueError`, `AttributeError`) become the
`Except` error channel.
-/

namespace LinerCement

noncomputable section

/-- A scalar value sitting in a payload object: a JSON number or a JSON
string.  (Pipe-section fields, mud weight and hole-overlap scalars are
numbers; `grade` is a string.) -/
inductive JVal where
  | num (x : ℝ)
  | str (s : String)

/-- A JSON object whose fields are scalars, e.g. the dict bound to
`payload["casing"]` or `payload["mud"]`.  Python dictionaries have unique
keys; lookups below take the first binding. -/
abbrev JDict := List (String × JVal)

/-- A value bound to a top-level payload key: a nested JSON object, or JSON
null (Python `None` — `main.py` dumps `dp2 = None` for requests that omit
`dp2`). -/
inductive JTop where
  | dict (d : JDict)
  | null

/-- The payload dictionary `Engine.calculate` receives. -/
abbrev Payload := List (String × JTop)

/-- The Python exceptions the engine code can raise: `KeyError` from
`payload["casing"]`, `TypeError` from `PipeSection(**kwargs)` or from
arithmetic on a non-number, `ValueError` from `float()`, `AttributeError`
from `None.get`. -/
inductive EngineError where
  | keyError (key : String)
  | typeError (msg : String)
  | valueError (msg : String)
  | attributeError (msg : String)
deriving DecidableEq

/-- `engine.py` lines 8–16: the `PipeSection` dataclass.  Field values are
kept as the payload scalars that were passed; the dataclass performs no
runtime type conversion. -/
structure PipeSection where
  od : JVal
  id : JVal
  wt : JVal
  length : JVal
  md : JVal
  tvd : JVal
  grade : JVal

/-- The keyword names `PipeSection(**d)` accepts (the dataclass fields). -/
def pipeKeys : List String := ["od", "id", "wt", "length", "md", "tvd", "grade"]

/-- The dataclass fields without a default value: all but `grade`. -/
def requiredPipeKeys : List String := ["od", "id", "wt", "length", "md", "tvd"]

/-- `PipeSection(**t)`: fails with `TypeError` on `None`, on an unexpected
keyword, or on a missing required field; `grade` defaults to `""`
(`engine.py` line 16). -/
def mkPipeSection (t : JTop) : Except EngineError PipeSection :=
  match t with
  | .null => .error (.typeError "argument after ** must be a mapping")
  | .dict d =>
    if d.all (fun kv => pipeKeys.contains kv.1) then
      match d.lookup "od", d.lookup "id", d.lookup "wt",
            d.lookup "length", d.lookup "md", d.lookup "tvd" with
      | some od, some idv, some wt, some len, some md, some tvd =>
        .ok ⟨od, idv, wt, len, md, tvd, (d.lookup "grade").getD (.str "")⟩
      | _, _, _, _, _, _ =>
        .error (.typeError "missing required positional argument")
    else
      .error (.typeError "unexpected keyword argument")

/-- `payload[k]`: `KeyError` when the key is absent (`engine.py` lines
20–22). -/
def getItem (p : Payload) (k : String) : Except EngineError JTop :=
  match p.lookup k with
  | some t => .ok t
  | none => .error (.keyError k)

/-- `engine.py` line 23: the literal default dict
`{"od":0,"id":0,"wt":0,"length":0,"md":0,"tvd":0,"grade":""}` substituted
for an absent `dp2` key. -/
def dp2DefaultDict : JDict :=
  [("od", .num 0), ("id", .num 0), ("wt", .num 0), ("length", .num 0),
   ("md", .num 0), ("tvd", .num 0), ("grade", .str "")]

/-- `float(v)` on a payload scalar: a number is returned unchanged.  A
string raises `ValueError` — Python's `float()` additionally parses numeric
text such as `"3.5"`; the scalar fields of a request are JSON numbers, and
no theorem below turns on the parse of a numeric string. -/
def pyFloat (v : JVal) : Except EngineError ℝ :=
  match v with
  | .num x => .ok x
  | .str _ => .error (.valueError "could not convert string to float")

/-- Using a payload scalar as a number in arithmetic (`liner.od / 12`):
`TypeError` on a string. -/
def asNum (v : JVal) : Except EngineError ℝ :=
  match v with
  | .num x => .ok x
  | .str _ => .error (.typeError "unsupported operand type")

/-- `float(payload.get(sec, {}).get(fld, dflt))` — the shape of `engine.py`
lines 24, 25, 31 and 32.  `payload.get(sec, {})` yields `{}` when the key
is absent; `.get` on `None` raises `AttributeError`. -/
def scalarField (p : Payload) (sec fld : String) (dflt : ℝ) :
    Except EngineError ℝ :=
  match (p.lookup sec).getD (.dict []) with
  | .null => .error (.attributeError "NoneType object has no attribute get")
  | .dict d =>
    match d.lookup fld with
    | some v => pyFloat v
    | none => .ok dflt

/-- `engine.py` lines 27–28: `area_ft2(d_in) = math.pi * (d_in/12)**2 / 4`. -/
def area_ft2 (d_in : ℝ) : ℝ := Real.pi * (d_in / 12) ^ 2 / 4

/-- `engine.py` line 34: barrels per cubic foot. -/
def BBL_PER_CUFT : ℝ := 0.1781076

/-- The result dict of `engine.py` lines 37–41. -/
structure CalcResult where
  cementVolume : ℝ
  mudPPG : ℝ
  annulusAreaFt2 : ℝ

/-- `Engine.calculate` (`engine.py` lines 19–41), with the statements in
source order: build `casing`, `liner`, `dp1`, `dp2`; read `mud.ppg` and
`holeOverlap.openHoleId`; compute the clamped annulus area (which uses
`liner.od` as a number); read `linerOverlap` and `shoeTrackLength`; return
the three-field result.  The `find_tvd` callback parameter is accepted and,
as in the source, never used. -/
def calculate (payload : Payload) (find_tvd : Option (ℝ → ℝ)) :
    Except EngineError CalcResult :=
  match getItem payload "casing" with
  | .error e => .error e
  | .ok casingTop =>
  match mkPipeSection casingTop with
  | .error e => .error e
  | .ok _casing =>
  match getItem payload "liner" with
  | .error e => .error e
  | .ok linerTop =>
  match mkPipeSection linerTop with
  | .error e => .error e
  | .ok liner =>
  match getItem payload "dp1" with
  | .error e => .error e
  | .ok dp1Top =>
  match mkPipeSection dp1Top with
  | .error e => .error e
  | .ok _dp1 =>
  match mkPipeSection ((payload.lookup "dp2").getD (.dict dp2DefaultDict)) with
  | .error e => .error e
  | .ok _dp2 =>
  match scalarField payload "mud" "ppg" 13.0 with
  | .error e => .error e
  | .ok mud_ppg =>
  match scalarField payload "holeOverlap" "openHoleId" 8.5 with
  | .error e => .error e
  | .ok open_hole_id =>
  match asNum liner.od with
  | .error e => .error e
  | .ok liner_od =>
  let annulus_area := max 0 (area_ft2 open_hole_id - area_ft2 liner_od)
  match scalarField payload "holeOverlap" "linerOverlap" 300 with
  | .error e => .error e
  | .ok liner_overlap_ft =>
  match scalarField payload "holeOverlap" "shoeTrackLength" 200 with
  | .error e => .error e
  | .ok shoe_track_ft =>
  let cement_interval := liner_overlap_ft + shoe_track_ft
  let cement_volume_bbl := annulus_area * cement_interval * BBL_PER_CUFT
  .ok { cementVolume := cement_volume_bbl
        mudPPG := mud_ppg
        annulusAreaFt2 := annulus_area }

/-! ## Well-formedness and the closed form of the result

The predicates and extraction functions below are read off the same source
lines as `calculate`; they give the exact condition under which the
evaluation above reaches its `.ok` result, and the value of that result. -/

/-- The scalar is a JSON number. -/
def isNumV : Option JVal → Bool
  | some (.num _) => true
  | _ => false

/-- A present scalar must be a number; an absent one defaults. -/
def isNumOpt : Option JVal → Bool
  | some (.num _) => true
  | some (.str _) => false
  | none => true

/-- `PipeSection(**d)` succeeds: every key is a dataclass field and every
required field is present. -/
def pipeDictOk (d : JDict) : Bool :=
  d.all (fun kv => pipeKeys.contains kv.1) &&
    requiredPipeKeys.all (fun k => (d.lookup k).isSome)

/-- A required section key (`casing`, `liner`, `dp1`) is bound to a dict
that `PipeSection(**·)` accepts. -/
def sectionOk : Option JTop → Bool
  | some (.dict d) => pipeDictOk d
  | _ => false

/-- The `liner` section must in addition carry a numeric `od`, which the
area formula divides by 12. -/
def linerOk : Option JTop → Bool
  | some (.dict d) => pipeDictOk d && isNumV (d.lookup "od")
  | _ => false

/-- The optional `dp2` section: absent is fine (the default dict is used),
a present dict must be acceptable, `None` raises. -/
def dp2Ok : Option JTop → Bool
  | none => true
  | some (.dict d) => pipeDictOk d
  | some .null => false

/-- A scalar field reached through `payload.get(sec, {}).get(fld, dflt)`
evaluates without an exception: section absent, or a dict whose field is
absent or numeric. -/
def scalarFieldOk : Option JTop → String → Bool
  | none, _ => true
  | some .null, _ => false
  | some (.dict d), fld => isNumOpt (d.lookup fld)

/-- The payloads on which `calculate` returns a result (rather than
raising): required sections present and acceptable, `liner.od` numeric,
`dp2` absent or acceptable, and the four optional scalars absent or
numeric. -/
def wfPayload (p : Payload) : Bool :=
  sectionOk (p.lookup "casing") &&
  linerOk (p.lookup "liner") &&
  sectionOk (p.lookup "dp1") &&
  dp2Ok (p.lookup "dp2") &&
  scalarFieldOk (p.lookup "mud") "ppg" &&
  scalarFieldOk (p.lookup "holeOverlap") "openHoleId" &&
  scalarFieldOk (p.lookup "holeOverlap") "linerOverlap" &&
  scalarFieldOk (p.lookup "holeOverlap") "shoeTrackLength"

/-- The dict bound to a top-level key, `{}` when absent or null (the
`payload.get(sec, {})` view used for field extraction). -/
def sectionDict (p : Payload) (k : String) : JDict :=
  match p.lookup k with
  | some (.dict d) => d
  | _ => []

/-- The numeric value of an optionally-present scalar, with its default. -/
def numD : Option JVal → ℝ → ℝ
  | some (.num x), _ => x
  | _, dflt => dflt

/-- `liner.od` as a number (0 is never used: a well-formed payload has a
numeric `od`). -/
def odOf (p : Payload) : ℝ := numD ((sectionDict p "liner").lookup "od") 0

/-- `float(payload.get("mud", {}).get("ppg", 13.0))` on a well-formed
payload. -/
def ppgOf (p : Payload) : ℝ := numD ((sectionDict p "mud").lookup "ppg") 13.0

/-- `holeOverlap.openHoleId`, default 8.5. -/
def openHoleIdOf (p : Payload) : ℝ :=
  numD ((sectionDict p "holeOverlap").lookup "openHoleId") 8.5

/-- `holeOverlap.linerOverlap`, default 300. -/
def linerOverlapOf (p : Payload) : ℝ :=
  numD ((sectionDict p "holeOverlap").lookup "linerOverlap") 300

/-- `holeOverlap.shoeTrackLength`, default 200. -/
def shoeTrackOf (p : Payload) : ℝ :=
  numD ((sectionDict p "holeOverlap").lookup "shoeTrackLength") 200

/-- The clamped annulus area of `engine.py` line 30. -/
def annulusAreaOf (p : Payload) : ℝ :=
  max 0 (area_ft2 (openHoleIdOf p) - area_ft2 (odOf p))

/-- The result `calculate` returns on a well-formed payload. -/
def specResult (p : Payload) : CalcResult :=
  { cementVolume :=
      annulusAreaOf p * (linerOverlapOf p + shoeTrackOf p) * BBL_PER_CUFT
    mudPPG := ppgOf p
    annulusAreaFt2 := annulusAreaOf p }

/-! ## Helper lemmas: the evaluation of `calculate` in closed form -/

/-- `PipeSection(**d)` succeeds exactly when the key set is acceptable. -/
theorem mkPipeSection_dict_isOk (d : JDict) :
    (mkPipeSection (.dict d)).isOk = pipeDictOk d := by
  unfold mkPipeSection pipeDictOk requiredPipeKeys
  cases hk : (d.all fun kv => pipeKeys.contains kv.1) with
  | false =>
    simp only [hk]
    simp [Except.isOk, Except.toBool]
  | true =>
    cases h1 : d.lookup "od" <;> cases h2 : d.lookup "id" <;>
      cases h3 : d.lookup "wt" <;> cases h4 : d.lookup "length" <;>
      cases h5 : d.lookup "md" <;> cases h6 : d.lookup "tvd" <;>
      (simp only [List.all_cons, List.all_nil, hk, h1, h2, h3, h4, h5, h6]
       simp [Except.isOk, Except.toBool])

/-- Inversion for a successful `PipeSection(**t)`: the argument was an
acceptable dict, and the section's `od` is the dict's `od` entry. -/
theorem mkPipeSection_ok_inv (t : JTop) (s : PipeSection)
    (h : mkPipeSection t = .ok s) :
    ∃ d, t = .dict d ∧ pipeDictOk d = true ∧ d.lookup "od" = some s.od := by
  cases t with
  | null => exact absurd h (by simp [mkPipeSection])
  | dict d =>
    refine ⟨d, rfl, ?_, ?_⟩
    · have hb := mkPipeSection_dict_isOk d
      rw [h] at hb
      exact hb.symm
    · simp only [mkPipeSection] at h
      by_cases hk : (d.all fun kv => pipeKeys.contains kv.1)
      · rw [if_pos hk] at h
        split at h
        · cases h
          assumption
        · cases h
      · rw [if_neg hk] at h
        cases h

/-- An acceptable dict yields a section, whose `od` is the dict's `od`. -/
theorem mkPipeSection_ok_of (d : JDict) (h : pipeDictOk d = true) :
    ∃ s, mkPipeSection (.dict d) = .ok s ∧ d.lookup "od" = some s.od := by
  have hok := mkPipeSection_dict_isOk d
  rw [h] at hok
  cases hs : mkPipeSection (.dict d) with
  | error e => rw [hs] at hok; simp [Except.isOk, Except.toBool] at hok
  | ok s =>
    obtain ⟨d', hd', -, hod⟩ := mkPipeSection_ok_inv _ _ hs
    cases hd'
    exact ⟨s, rfl, hod⟩

/-- `payload[k]` returns exactly the bound value. -/
theorem getItem_ok_iff (p : Payload) (k : String) (t : JTop) :
    getItem p k = .ok t ↔ p.lookup k = some t := by
  unfold getItem
  cases p.lookup k <;> simp

/-- A scalar field whose section passes `scalarFieldOk` evaluates to the
looked-up number or the default. -/
theorem scalarField_eq (p : Payload) (sec fld : String) (dflt : ℝ)
    (h : scalarFieldOk (p.lookup sec) fld = true) :
    scalarField p sec fld dflt =
      .ok (numD ((sectionDict p sec).lookup fld) dflt) := by
  unfold scalarField sectionDict
  cases ho : p.lookup sec with
  | none => simp [numD]
  | some t =>
    rw [ho] at h
    cases t with
    | null => simp [scalarFieldOk] at h
    | dict d =>
      simp only [scalarFieldOk] at h
      simp only [Option.getD_some]
      cases hv : d.lookup fld with
      | none => simp [numD]
      | some v =>
        rw [hv] at h
        cases v with
        | num x => simp [pyFloat, numD]
        | str s => simp [isNumOpt] at h

/-- Inversion for a successful scalar-field read. -/
theorem scalarField_ok_inv (p : Payload) (sec fld : String) (dflt : ℝ)
    (x : ℝ) (h : scalarField p sec fld dflt = .ok x) :
    scalarFieldOk (p.lookup sec) fld = true ∧
      x = numD ((sectionDict p sec).lookup fld) dflt := by
  have hok : scalarFieldOk (p.lookup sec) fld = true := by
    unfold scalarField at h
    cases ho : p.lookup sec with
    | none => simp [scalarFieldOk]
    | some t =>
      rw [ho] at h
      cases t with
      | null => simp at h
      | dict d =>
        simp only [Option.getD_some] at h
        simp only [scalarFieldOk]
        cases hv : d.lookup fld with
        | none => simp [isNumOpt]
        | some v =>
          rw [hv] at h
          cases v with
          | num y => simp [isNumOpt]
          | str s => simp [pyFloat] at h
  refine ⟨hok, ?_⟩
  rw [scalarField_eq p sec fld dflt hok] at h
  exact (Except.ok.inj h).symm

/-- Elimination for a well-formed required section. -/
theorem sectionOk_elim {o : Option JTop} (h : sectionOk o = true) :
    ∃ d, o = some (.dict d) ∧ pipeDictOk d = true := by
  match o with
  | some (.dict d) => exact ⟨d, rfl, h⟩
  | some .null => simp [sectionOk] at h
  | none => simp [sectionOk] at h

/-- Elimination for a well-formed liner section. -/
theorem linerOk_elim {o : Option JTop} (h : linerOk o = true) :
    ∃ d x, o = some (.dict d) ∧ pipeDictOk d = true ∧
      d.lookup "od" = some (.num x) := by
  match o with
  | some (.dict d) =>
    simp only [linerOk, Bool.and_eq_true] at h
    obtain ⟨hd, hnum⟩ := h
    cases hv : d.lookup "od" with
    | none => rw [hv] at hnum; simp [isNumV] at hnum
    | some v =>
      cases v with
      | num x => exact ⟨d, x, rfl, hd, hv⟩
      | str s => rw [hv] at hnum; simp [isNumV] at hnum
  | some .null => simp [linerOk] at h
  | none => simp [linerOk] at h

/-- On a well-formed payload, `calculate` returns exactly `specResult`. -/
theorem calculate_wf (p : Payload) (f : Option (ℝ → ℝ))
    (h : wfPayload p = true) : calculate p f = .ok (specResult p) := by
  unfold wfPayload at h
  simp only [Bool.and_eq_true, and_assoc] at h
  obtain ⟨hcas, hlin, hdp1, hdp2, hmud, hoh1, hoh2, hoh3⟩ := h
  obtain ⟨dc, hdc, hdcOk⟩ := sectionOk_elim hcas
  obtain ⟨dl, x, hdl, hdlOk, hodx⟩ := linerOk_elim hlin
  obtain ⟨dd, hdd, hddOk⟩ := sectionOk_elim hdp1
  obtain ⟨sc, hsc, -⟩ := mkPipeSection_ok_of dc hdcOk
  obtain ⟨sl, hsl, hslod⟩ := mkPipeSection_ok_of dl hdlOk
  obtain ⟨sd, hsd, -⟩ := mkPipeSection_ok_of dd hddOk
  have hslod' : sl.od = .num x := Option.some.inj (hslod.symm.trans hodx)
  have hdp2' : ∃ s2,
      mkPipeSection ((p.lookup "dp2").getD (.dict dp2DefaultDict)) = .ok s2 := by
    cases ho : p.lookup "dp2" with
    | none => exact ⟨_, rfl⟩
    | some t =>
      rw [ho] at hdp2
      cases t with
      | null => simp [dp2Ok] at hdp2
      | dict d2 =>
        obtain ⟨s2, hs2, -⟩ := mkPipeSection_ok_of d2 (by simpa [dp2Ok] using hdp2)
        exact ⟨s2, by simpa using hs2⟩
  obtain ⟨s2, hs2⟩ := hdp2'
  have hm := scalarField_eq p "mud" "ppg" 13.0 hmud
  have ho1 := scalarField_eq p "holeOverlap" "openHoleId" 8.5 hoh1
  have ho2 := scalarField_eq p "holeOverlap" "linerOverlap" 300 hoh2
  have ho3 := scalarField_eq p "holeOverlap" "shoeTrackLength" 200 hoh3
  have han : asNum sl.od = .ok x := by rw [hslod']; rfl
  have hgc : getItem p "casing" = .ok (.dict dc) := (getItem_ok_iff _ _ _).mpr hdc
  have hgl : getItem p "liner" = .ok (.dict dl) := (getItem_ok_iff _ _ _).mpr hdl
  have hgd : getItem p "dp1" = .ok (.dict dd) := (getItem_ok_iff _ _ _).mpr hdd
  have hodOf : odOf p = x := by simp [odOf, sectionDict, hdl, hodx, numD]
  unfold calculate
  simp only [hgc, hsc, hgl, hsl, hgd, hsd, hs2, hm, ho1, han, ho2, ho3]
  simp only [specResult, annulusAreaOf, ppgOf, openHoleIdOf, linerOverlapOf,
    shoeTrackOf, hodOf]

/-- Inversion: a successful `calculate` forces a well-formed payload and
pins the result to `specResult`. -/
theorem calculate_ok_inv (p : Payload) (f : Option (ℝ → ℝ)) (r : CalcResult)
    (h : calculate p f = .ok r) : wfPayload p = true ∧ r = specResult p := by
  unfold calculate at h
  split at h
  · exact absurd h (by simp)
  next casingTop hc =>
  split at h
  · exact absurd h (by simp)
  next c hcs =>
  split at h
  · exact absurd h (by simp)
  next linerTop hl =>
  split at h
  · exact absurd h (by simp)
  next liner hls =>
  split at h
  · exact absurd h (by simp)
  next dp1Top hd =>
  split at h
  · exact absurd h (by simp)
  next d1 hds =>
  split at h
  · exact absurd h (by simp)
  next s2 h2s =>
  split at h
  · exact absurd h (by simp)
  next mud_ppg hmu =>
  split at h
  · exact absurd h (by simp)
  next open_hole_id hq1 =>
  split at h
  · exact absurd h (by simp)
  next liner_od han =>
  split at h
  · exact absurd h (by simp)
  next liner_overlap_ft hq2 =>
  split at h
  · exact absurd h (by simp)
  next shoe_track_ft hq3 =>
  obtain ⟨dc, hct, hcOk, -⟩ := mkPipeSection_ok_inv _ _ hcs
  obtain ⟨dl, hlt, hlOk, hlod⟩ := mkPipeSection_ok_inv _ _ hls
  obtain ⟨dd, hdt, hdOk, -⟩ := mkPipeSection_ok_inv _ _ hds
  subst hct hlt hdt
  have hdc' : p.lookup "casing" = some (.dict dc) := (getItem_ok_iff _ _ _).mp hc
  have hdl' : p.lookup "liner" = some (.dict dl) := (getItem_ok_iff _ _ _).mp hl
  have hdd' : p.lookup "dp1" = some (.dict dd) := (getItem_ok_iff _ _ _).mp hd
  have hodnum : liner.od = .num liner_od := by
    cases hv : liner.od with
    | num y => rw [hv] at han; cases han; rfl
    | str s => rw [hv] at han; exact absurd han (by simp [asNum])
  have hdp2Ok : dp2Ok (p.lookup "dp2") = true := by
    cases ho : p.lookup "dp2" with
    | none => rfl
    | some t =>
      rw [ho] at h2s
      cases t with
      | null => exact absurd h2s (by simp [mkPipeSection])
      | dict d2 =>
        obtain ⟨d2', he, hOk, -⟩ := mkPipeSection_ok_inv _ _ (by simpa using h2s)
        cases he
        simpa [dp2Ok] using hOk
  obtain ⟨hmOk, hmVal⟩ := scalarField_ok_inv _ _ _ _ _ hmu
  obtain ⟨h1Ok, h1Val⟩ := scalarField_ok_inv _ _ _ _ _ hq1
  obtain ⟨h2Ok, h2Val⟩ := scalarField_ok_inv _ _ _ _ _ hq2
  obtain ⟨h3Ok, h3Val⟩ := scalarField_ok_inv _ _ _ _ _ hq3
  have hodNumV : isNumV (dl.lookup "od") = true := by
    rw [hlod, hodnum]; rfl
  have hwf : wfPayload p = true := by
    unfold wfPayload
    rw [hdc', hdl', hdd']
    simp only [sectionOk, linerOk, Bool.and_eq_true, and_assoc]
    exact ⟨hcOk, hlOk, hodNumV, hdOk, hdp2Ok, hmOk, h1Ok, h2Ok, h3Ok⟩
  refine ⟨hwf, ?_⟩
  have hodOf : odOf p = liner_od := by
    rw [hodnum] at hlod
    simp [odOf, sectionDict, hdl', hlod, numD]
  have hr := (Except.ok.inj h).symm
  rw [hr]
  simp only [specResult, annulusAreaOf, ppgOf, openHoleIdOf, linerOverlapOf,
    shoeTrackOf, hodOf, hmVal, h1Val, h2Val, h3Val]

/-! ## The HTTP boundary (`src/backend/app/main.py`)

The pydantic request models and `req.model_dump(by_alias=True)`.  pydantic
validates each declared field: a missing field without a default is
rejected, a missing field with a default is filled, unknown extra keys are
ignored (the default pydantic config).  pydantic additionally coerces
numeric strings to floats; payload scalars here are JSON numbers, and no
theorem below turns on the coercion of a numeric string. -/

/-- A pydantic validation failure (surfaced as a 422 response). -/
inductive ValidationError where
  | missingField (loc : String)
  | typeMismatch (loc : String)
deriving DecidableEq

/-- `main.py` lines 8–15: `PipeModel`. -/
structure PipeModel where
  od : ℝ
  id : ℝ
  wt : ℝ
  length : ℝ
  md : ℝ
  tvd : ℝ
  grade : String

/-- `main.py` lines 17–20: `HoleOverlapModel` (the `openHoleId` alias equals
the field name, so `by_alias` is the identity here). -/
structure HoleOverlapModel where
  openHoleId : ℝ
  linerOverlap : ℝ
  shoeTrackLength : ℝ

/-- `main.py` lines 22–23: `MudModel`. -/
structure MudModel where
  ppg : ℝ

/-- `main.py` lines 25–31: `CalcRequest`; `dp2` is the only top-level field
with a default (`None`). -/
structure CalcRequest where
  casing : PipeModel
  liner : PipeModel
  dp1 : PipeModel
  dp2 : Option PipeModel
  mud : MudModel
  holeOverlap : HoleOverlapModel

/-- A required float field of a pydantic model. -/
def parseFloat (d : JDict) (fld : String) : Except ValidationError ℝ :=
  match d.lookup fld with
  | some (.num x) => .ok x
  | some (.str _) => .error (.typeMismatch fld)
  | none => .error (.missingField fld)

/-- A float field with a declared default. -/
def parseFloatD (d : JDict) (fld : String) (dflt : ℝ) :
    Except ValidationError ℝ :=
  match d.lookup fld with
  | some (.num x) => .ok x
  | some (.str _) => .error (.typeMismatch fld)
  | none => .ok dflt

/-- A string field with a declared default (`grade: str = ""`). -/
def parseStrD (d : JDict) (fld : String) (dflt : String) :
    Except ValidationError String :=
  match d.lookup fld with
  | some (.str s) => .ok s
  | some (.num _) => .error (.typeMismatch fld)
  | none => .ok dflt

/-- Validation of one `PipeModel` value. -/
def parsePipeModel (t : JTop) : Except ValidationError PipeModel :=
  match t with
  | .null => .error (.typeMismatch "PipeModel")
  | .dict d => do
    let od ← parseFloat d "od"
    let idv ← parseFloat d "id"
    let wt ← parseFloat d "wt"
    let len ← parseFloat d "length"
    let md ← parseFloat d "md"
    let tvd ← parseFloat d "tvd"
    let grade ← parseStrD d "grade" ""
    .ok ⟨od, idv, wt, len, md, tvd, grade⟩

/-- Validation of `MudModel` (`ppg: float = 13.0`). -/
def parseMud (t : JTop) : Except ValidationError MudModel :=
  match t with
  | .null => .error (.typeMismatch "MudModel")
  | .dict d => do
    let ppg ← parseFloatD d "ppg" 13.0
    .ok ⟨ppg⟩

/-- Validation of `HoleOverlapModel` with its three field defaults. -/
def parseHoleOverlap (t : JTop) : Except ValidationError HoleOverlapModel :=
  match t with
  | .null => .error (.typeMismatch "HoleOverlapModel")
  | .dict d => do
    let ohid ← parseFloatD d "openHoleId" 8.5
    let lov ← parseFloatD d "linerOverlap" 300
    let st ← parseFloatD d "shoeTrackLength" 200
    .ok ⟨ohid, lov, st⟩

/-- `dp2: Optional[PipeModel] = None`: absent or JSON null give `None`. -/
def parseDp2 : Option JTop → Except ValidationError (Option PipeModel)
  | none => .ok none
  | some .null => .ok none
  | some (.dict d) => (parsePipeModel (.dict d)).map some

/-- Validation of a `CalcRequest` body: the five required top-level fields
must be present (pydantic checks each declared field independently; the
first missing one is reported here), then each sub-model is validated. -/
def parseCalcRequest (raw : Payload) : Except ValidationError CalcRequest :=
  match raw.lookup "casing", raw.lookup "liner", raw.lookup "dp1",
        raw.lookup "mud", raw.lookup "holeOverlap" with
  | some tc, some tl, some td, some tm, some th => do
    let casing ← parsePipeModel tc
    let liner ← parsePipeModel tl
    let dp1 ← parsePipeModel td
    let dp2 ← parseDp2 (raw.lookup "dp2")
    let mud ← parseMud tm
    let holeOverlap ← parseHoleOverlap th
    .ok ⟨casing, liner, dp1, dp2, mud, holeOverlap⟩
  | none, _, _, _, _ => .error (.missingField "casing")
  | _, none, _, _, _ => .error (.missingField "liner")
  | _, _, none, _, _ => .error (.missingField "dp1")
  | _, _, _, none, _ => .error (.missingField "mud")
  | _, _, _, _, none => .error (.missingField "holeOverlap")

/-- `model_dump` of one pipe section. -/
def dumpPipe (s : PipeModel) : JDict :=
  [("od", .num s.od), ("id", .num s.id), ("wt", .num s.wt),
   ("length", .num s.length), ("md", .num s.md), ("tvd", .num s.tvd),
   ("grade", .str s.grade)]

/-- `req.model_dump(by_alias=True)` (`main.py` line 41): every declared
field is emitted, `dp2 = None` as JSON null. -/
def dumpReq (r : CalcRequest) : Payload :=
  [("casing", .dict (dumpPipe r.casing)),
   ("liner", .dict (dumpPipe r.liner)),
   ("dp1", .dict (dumpPipe r.dp1)),
   ("dp2", match r.dp2 with | some s => .dict (dumpPipe s) | none => .null),
   ("mud", .dict [("ppg", .num r.mud.ppg)]),
   ("holeOverlap",
    .dict [("openHoleId", .num r.holeOverlap.openHoleId),
           ("linerOverlap", .num r.holeOverlap.linerOverlap),
           ("shoeTrackLength", .num r.holeOverlap.shoeTrackLength)])]

/-! ## Concrete payloads used by witnesses and counterexamples -/

/-- A well-formed pipe-section dict (grade omitted, so it defaults). -/
def okPipe : JDict :=
  [("od", .num 7), ("id", .num 6.2), ("wt", .num 0.4),
   ("length", .num 1000), ("md", .num 5000), ("tvd", .num 4800)]

/-- A minimal well-formed payload: the three required sections only. -/
def basePayload : Payload :=
  [("casing", .dict okPipe), ("liner", .dict okPipe), ("dp1", .dict okPipe)]

/-- A liner dict whose outer diameter is 0. -/
def zeroOdPipe : JDict :=
  [("od", .num 0), ("id", .num 0), ("wt", .num 0.4),
   ("length", .num 1000), ("md", .num 5000), ("tvd", .num 4800)]

/-- A payload with a negative `openHoleId`: `liner.od = 0 ≥ -10 =
openHoleId`, yet `area_ft2 (-10) > 0`, so the annulus area does not clamp
to 0. -/
def negativeHolePayload : Payload :=
  [("casing", .dict okPipe), ("liner", .dict zeroOdPipe),
   ("dp1", .dict okPipe),
   ("holeOverlap", .dict [("openHoleId", .num (-10))])]

/-- Monotonicity of the disc area in the diameter, for non-negative
diameters. -/
theorem area_ft2_mono {a b : ℝ} (ha : 0 ≤ a) (hab : a ≤ b) :
    area_ft2 a ≤ area_ft2 b := by
  unfold area_ft2
  have hpi := Real.pi_pos
  have h2 : (a / 12) ^ 2 ≤ (b / 12) ^ 2 :=
    pow_le_pow_left₀ (by linarith) (by linarith) 2
  nlinarith [h2]

/-! ## The claims -/

/-- C1: whenever `Engine.calculate` returns a result, its `cementVolume`
equals `annulusAreaFt2 · (linerOverlap + shoeTrackLength) · 0.1781076`,
where `annulusAreaFt2` is the clamped annular area
`max 0 (area(openHoleId) − area(liner.od))`. -/
theorem cementVolume_eq_area_interval_const (p : Payload)
    (f : Option (ℝ → ℝ)) (r : CalcResult) (h : calculate p f = .ok r) :
    r.cementVolume =
        r.annulusAreaFt2 * (linerOverlapOf p + shoeTrackOf p) * BBL_PER_CUFT ∧
      r.annulusAreaFt2 =
        max 0 (area_ft2 (openHoleIdOf p) - area_ft2 (odOf p)) := by
  obtain ⟨-, hr⟩ := calculate_ok_inv p f r h
  subst hr
  exact ⟨rfl, rfl⟩

/-- C1 witness: the volume formula, instantiated on a concrete request. -/
theorem cementVolume_eq_area_interval_const_witness :
    (specResult basePayload).cementVolume =
        (specResult basePayload).annulusAreaFt2 *
          (linerOverlapOf basePayload + shoeTrackOf basePayload) *
          BBL_PER_CUFT ∧
      (specResult basePayload).annulusAreaFt2 =
        max 0 (area_ft2 (openHoleIdOf basePayload) -
          area_ft2 (odOf basePayload)) :=
  cementVolume_eq_area_interval_const basePayload none
    (specResult basePayload) rfl

/-- C2 counterexample: a request with `liner.od ≥ openHoleId` whose
`annulusAreaFt2` is not 0 — the clamp compares signed areas, and a
negative `openHoleId` squares to a positive open-hole area. -/
theorem annulus_not_zero_despite_od_ge_openHole_cex :
    openHoleIdOf negativeHolePayload ≤ odOf negativeHolePayload ∧
      ∃ r, calculate negativeHolePayload none = .ok r ∧
        r.annulusAreaFt2 ≠ 0 := by
  constructor
  · show (-10 : ℝ) ≤ 0
    norm_num
  · refine ⟨specResult negativeHolePayload, rfl, ?_⟩
    show max 0 (area_ft2 (-10) - area_ft2 0) ≠ 0
    have h0 : area_ft2 (0 : ℝ) = 0 := by unfold area_ft2; norm_num
    have hpos : 0 < area_ft2 (-10 : ℝ) := by
      unfold area_ft2
      have hb : ((-10 : ℝ) / 12) ^ 2 = 25 / 36 := by norm_num
      rw [hb]
      positivity
    rw [h0, sub_zero, max_eq_right hpos.le]
    exact ne_of_gt hpos

/-- C2 (amended): `annulusAreaFt2` always equals
`max 0 (area(openHoleId) − area(liner.od))`, hence is non-negative; when
`0 ≤ openHoleId ≤ liner.od` (e.g. `liner.od = 10 > 8.5 = openHoleId`) it
is exactly 0 and `cementVolume` is 0; and no error is raised for a
well-formed degenerate geometry. -/
theorem annulusArea_clamped_nonneg :
    (∀ (p : Payload) (f : Option (ℝ → ℝ)) (r : CalcResult),
        calculate p f = .ok r →
          r.annulusAreaFt2 =
              max 0 (area_ft2 (openHoleIdOf p) - area_ft2 (odOf p)) ∧
            0 ≤ r.annulusAreaFt2) ∧
      (∀ (p : Payload) (f : Option (ℝ → ℝ)) (r : CalcResult),
        calculate p f = .ok r → 0 ≤ openHoleIdOf p →
          openHoleIdOf p ≤ odOf p →
            r.annulusAreaFt2 = 0 ∧ r.cementVolume = 0) ∧
      (∀ (p : Payload) (f : Option (ℝ → ℝ)),
        wfPayload p = true → (calculate p f).isOk = true) := by
  refine ⟨?_, ?_, ?_⟩
  · intro p f r h
    obtain ⟨-, hr⟩ := calculate_ok_inv p f r h
    subst hr
    exact ⟨rfl, le_max_left 0 _⟩
  · intro p f r h h0 hle
    obtain ⟨-, hr⟩ := calculate_ok_inv p f r h
    subst hr
    have harea : area_ft2 (openHoleIdOf p) - area_ft2 (odOf p) ≤ 0 :=
      sub_nonpos.mpr (area_ft2_mono h0 hle)
    have hz : annulusAreaOf p = 0 := by
      unfold annulusAreaOf
      exact max_eq_left harea
    refine ⟨hz, ?_⟩
    show annulusAreaOf p * (linerOverlapOf p + shoeTrackOf p) *
      BBL_PER_CUFT = 0
    rw [hz, zero_mul, zero_mul]
  · intro p f h
    rw [calculate_wf p f h]
    rfl

/-- C3: the helper area function implements `π·(d/12)²/4` — the diameter
is converted from inches to feet before squaring — and `area_ft2 12 =
π/4`. -/
theorem area_ft2_formula :
    (∀ d : ℝ, area_ft2 d = Real.pi * (d / 12) ^ 2 / 4) ∧
      area_ft2 12 = Real.pi / 4 := by
  constructor
  · intro d; rfl
  · unfold area_ft2; norm_num

/-- C8: the `find_tvd` callback parameter is never invoked; any two
callbacks (including none at all) give identical results on every
payload. -/
theorem find_tvd_unused (p : Payload) (f g : Option (ℝ → ℝ)) :
    calculate p f = calculate p g := rfl

/-- C4: a request omitting `mud`, `holeOverlap` and `dp2` computes with
`ppg = 13.0`, `openHoleId = 8.5`, `linerOverlap = 300` and
`shoeTrackLength = 200`; an absent `dp2` is replaced by the all-zero
section with empty grade; and a scalar sub-field defaults individually
whenever just that key is absent from its (present) section. -/
theorem defaults_applied :
    (∀ (p : Payload) (f : Option (ℝ → ℝ)),
        wfPayload p = true → p.lookup "mud" = none →
          p.lookup "holeOverlap" = none → p.lookup "dp2" = none →
            calculate p f = .ok
              { cementVolume := max 0 (area_ft2 8.5 - area_ft2 (odOf p)) *
                  (300 + 200) * BBL_PER_CUFT
                mudPPG := 13.0
                annulusAreaFt2 :=
                  max 0 (area_ft2 8.5 - area_ft2 (odOf p)) }) ∧
      (∀ p : Payload, p.lookup "dp2" = none →
        mkPipeSection ((p.lookup "dp2").getD (.dict dp2DefaultDict)) =
          .ok ⟨.num 0, .num 0, .num 0, .num 0, .num 0, .num 0, .str ""⟩) ∧
      (∀ (p : Payload) (sec fld : String) (dflt : ℝ) (d : JDict),
        p.lookup sec = some (.dict d) → d.lookup fld = none →
          scalarField p sec fld dflt = .ok dflt) := by
  refine ⟨?_, ?_, ?_⟩
  · intro p f hwf hm hh hd
    have hppg : ppgOf p = 13.0 := by
      unfold ppgOf sectionDict; rw [hm]; rfl
    have hoh : openHoleIdOf p = 8.5 := by
      unfold openHoleIdOf sectionDict; rw [hh]; rfl
    have hlo : linerOverlapOf p = 300 := by
      unfold linerOverlapOf sectionDict; rw [hh]; rfl
    have hst : shoeTrackOf p = 200 := by
      unfold shoeTrackOf sectionDict; rw [hh]; rfl
    rw [calculate_wf p f hwf]
    unfold specResult annulusAreaOf
    rw [hppg, hoh, hlo, hst]
  · intro p h
    rw [h]
    rfl
  · intro p sec fld dflt d h1 h2
    unfold scalarField
    rw [h1]
    simp only [Option.getD_some]
    rw [h2]

/-- A well-formed casing/drillpipe dict unlike `okPipe` in every field. -/
def variedPipe : JDict :=
  [("od", .num 9.625), ("id", .num 8.835), ("wt", .num 1),
   ("length", .num 2), ("md", .num 3), ("tvd", .num 4),
   ("grade", .str "P110")]

/-- A liner dict with the same `od` as `okPipe` but different other
fields. -/
def linerVariant : JDict :=
  [("od", .num 7), ("id", .num 6.0), ("wt", .num 0.5),
   ("length", .num 900), ("md", .num 5100), ("tvd", .num 4900),
   ("grade", .str "Q125")]

/-- A payload agreeing with `basePayload` on `liner.od`, `mud.ppg` and the
three `holeOverlap` scalars (all via defaults/absence), and differing in
everything else. -/
def richPayload : Payload :=
  [("casing", .dict variedPipe), ("liner", .dict linerVariant),
   ("dp1", .dict variedPipe), ("dp2", .dict variedPipe),
   ("mud", .dict []), ("holeOverlap", .dict [])]

/-- C5: the result depends only on `liner.od`, `mud.ppg` and the three
`holeOverlap` scalars — two well-formed payloads agreeing on those five
lookups give identical results, whatever their `casing`, `dp1`, `dp2`,
remaining liner fields, or callbacks. -/
theorem result_depends_only_on_five_inputs
    (p1 p2 : Payload) (f1 f2 : Option (ℝ → ℝ))
    (h1 : wfPayload p1 = true) (h2 : wfPayload p2 = true)
    (hod : (sectionDict p1 "liner").lookup "od" =
      (sectionDict p2 "liner").lookup "od")
    (hppg : (sectionDict p1 "mud").lookup "ppg" =
      (sectionDict p2 "mud").lookup "ppg")
    (hoh : (sectionDict p1 "holeOverlap").lookup "openHoleId" =
      (sectionDict p2 "holeOverlap").lookup "openHoleId")
    (hlo : (sectionDict p1 "holeOverlap").lookup "linerOverlap" =
      (sectionDict p2 "holeOverlap").lookup "linerOverlap")
    (hst : (sectionDict p1 "holeOverlap").lookup "shoeTrackLength" =
      (sectionDict p2 "holeOverlap").lookup "shoeTrackLength") :
    calculate p1 f1 = calculate p2 f2 := by
  rw [calculate_wf p1 f1 h1, calculate_wf p2 f2 h2]
  unfold specResult annulusAreaOf odOf ppgOf openHoleIdOf linerOverlapOf
    shoeTrackOf
  rw [hod, hppg, hoh, hlo, hst]

/-- C5 witness: two concrete payloads differing in casing, dp1, dp2, the
non-`od` liner fields and the callback give the same result. -/
theorem result_depends_only_on_five_inputs_witness :
    calculate basePayload none = calculate richPayload (some fun x => x + 1) :=
  result_depends_only_on_five_inputs basePayload richPayload none
    (some fun x => x + 1) rfl rfl rfl rfl rfl rfl rfl

/-- A payload whose three required sections are present but whose casing
dict carries the unknown key `"foo"`. -/
def extraKeyPayload : Payload :=
  [("casing", .dict (okPipe ++ [("foo", .num 1)])),
   ("liner", .dict okPipe), ("dp1", .dict okPipe)]

/-- C6 counterexample: all three required sections are present, yet
`calculate` raises — the unknown key `"foo"` in `casing` makes
`PipeSection(**payload["casing"])` fail, so "error iff a required section
is missing" does not hold as stated. -/
theorem error_without_missing_section_cex :
    (extraKeyPayload.lookup "casing").isSome = true ∧
      (extraKeyPayload.lookup "liner").isSome = true ∧
      (extraKeyPayload.lookup "dp1").isSome = true ∧
      calculate extraKeyPayload none =
        .error (.typeError "unexpected keyword argument") :=
  ⟨rfl, rfl, rfl, rfl⟩

/-- C6 (amended): `calculate` raises an error whenever a required section
(`casing`, `liner` or `dp1`) is missing, never substituting a default —
the first missing section, its predecessors being present and acceptable,
is reported with the structural missing-field `KeyError` for that key —
and a well-formed payload raises nothing and returns a result. -/
theorem missing_section_error_and_wf_success :
    (∀ (p : Payload) (f : Option (ℝ → ℝ)), p.lookup "casing" = none →
        calculate p f = .error (.keyError "casing")) ∧
      (∀ (p : Payload) (f : Option (ℝ → ℝ)) (dc : JDict),
        p.lookup "casing" = some (.dict dc) → pipeDictOk dc = true →
          p.lookup "liner" = none →
            calculate p f = .error (.keyError "liner")) ∧
      (∀ (p : Payload) (f : Option (ℝ → ℝ)) (dc dl : JDict),
        p.lookup "casing" = some (.dict dc) → pipeDictOk dc = true →
          p.lookup "liner" = some (.dict dl) → pipeDictOk dl = true →
            p.lookup "dp1" = none →
              calculate p f = .error (.keyError "dp1")) ∧
      (∀ (p : Payload) (f : Option (ℝ → ℝ)), p.lookup "liner" = none →
        (calculate p f).isOk = false) ∧
      (∀ (p : Payload) (f : Option (ℝ → ℝ)), p.lookup "dp1" = none →
        (calculate p f).isOk = false) ∧
      (∀ (p : Payload) (f : Option (ℝ → ℝ)), wfPayload p = true →
        ∃ r, calculate p f = .ok r) := by
  refine ⟨?_, ?_, ?_, ?_, ?_, ?_⟩
  · intro p f h
    unfold calculate getItem
    rw [h]
  · intro p f dc hc hcOk h
    obtain ⟨sc, hsc, -⟩ := mkPipeSection_ok_of dc hcOk
    have hgc : getItem p "casing" = .ok (.dict dc) :=
      (getItem_ok_iff _ _ _).mpr hc
    have hgl : getItem p "liner" = .error (.keyError "liner") := by
      unfold getItem; rw [h]
    unfold calculate
    simp only [hgc, hsc, hgl]
  · intro p f dc dl hc hcOk hl hlOk h
    obtain ⟨sc, hsc, -⟩ := mkPipeSection_ok_of dc hcOk
    obtain ⟨sl, hsl, -⟩ := mkPipeSection_ok_of dl hlOk
    have hgc : getItem p "casing" = .ok (.dict dc) :=
      (getItem_ok_iff _ _ _).mpr hc
    have hgl : getItem p "liner" = .ok (.dict dl) :=
      (getItem_ok_iff _ _ _).mpr hl
    have hgd : getItem p "dp1" = .error (.keyError "dp1") := by
      unfold getItem; rw [h]
    unfold calculate
    simp only [hgc, hsc, hgl, hsl, hgd]
  · intro p f h
    cases hc : calculate p f with
    | error e => rfl
    | ok r =>
      exfalso
      obtain ⟨hwf, -⟩ := calculate_ok_inv p f r hc
      unfold wfPayload at hwf
      rw [h] at hwf
      simp [linerOk] at hwf
  · intro p f h
    cases hc : calculate p f with
    | error e => rfl
    | ok r =>
      exfalso
      obtain ⟨hwf, -⟩ := calculate_ok_inv p f r hc
      unfold wfPayload at hwf
      rw [h] at hwf
      simp [sectionOk] at hwf
  · intro p f h
    exact ⟨specResult p, calculate_wf p f h⟩

/-- A payload supplying `mud.ppg = 11` and nothing else optional. -/
def mudPayloadA : Payload :=
  [("casing", .dict okPipe), ("liner", .dict okPipe), ("dp1", .dict okPipe),
   ("mud", .dict [("ppg", .num 11)])]

/-- A payload supplying the same `mud.ppg = 11` with different sections
and hole-overlap scalars. -/
def mudPayloadB : Payload :=
  [("casing", .dict variedPipe), ("liner", .dict linerVariant),
   ("dp1", .dict variedPipe), ("mud", .dict [("ppg", .num 11)]),
   ("holeOverlap",
    .dict [("openHoleId", .num 9.875), ("linerOverlap", .num 250),
           ("shoeTrackLength", .num 100)])]

/-- C7: a numeric `mud.ppg` is passed through unchanged to the result's
`mudPPG`, and no other input field (nor the callback) affects it: two
requests with the same numeric `mud.ppg` return the same `mudPPG`. -/
theorem mudPPG_passthrough (p1 p2 : Payload) (f1 f2 : Option (ℝ → ℝ))
    (x : ℝ) (r1 r2 : CalcResult)
    (hm1 : (sectionDict p1 "mud").lookup "ppg" = some (.num x))
    (hm2 : (sectionDict p2 "mud").lookup "ppg" = some (.num x))
    (hc1 : calculate p1 f1 = .ok r1) (hc2 : calculate p2 f2 = .ok r2) :
    r1.mudPPG = x ∧ r2.mudPPG = r1.mudPPG := by
  obtain ⟨-, e1⟩ := calculate_ok_inv p1 f1 r1 hc1
  obtain ⟨-, e2⟩ := calculate_ok_inv p2 f2 r2 hc2
  subst e1
  subst e2
  have g1 : ppgOf p1 = x := by unfold ppgOf; rw [hm1]; rfl
  have g2 : ppgOf p2 = x := by unfold ppgOf; rw [hm2]; rfl
  refine ⟨g1, ?_⟩
  show ppgOf p2 = ppgOf p1
  rw [g1, g2]

/-- C7 witness: `mud.ppg = 11` reappears as the `mudPPG` of both concrete
results. -/
theorem mudPPG_passthrough_witness :
    (specResult mudPayloadA).mudPPG = 11 ∧
      (specResult mudPayloadB).mudPPG = (specResult mudPayloadA).mudPPG :=
  mudPPG_passthrough mudPayloadA mudPayloadB none (some fun x => x) 11
    (specResult mudPayloadA) (specResult mudPayloadB) rfl rfl rfl rfl

/-- C9: `PipeSection(**d)` succeeds exactly when every key of `d` is a
dataclass field and the six required fields are present; consequently a
payload binding `casing`, `liner`, `dp1` or `dp2` to a dict with an
unknown or missing key never yields a result. -/
theorem pipeSection_rejects_bad_keys :
    (∀ d : JDict, (mkPipeSection (.dict d)).isOk = pipeDictOk d) ∧
      (∀ (p : Payload) (f : Option (ℝ → ℝ)) (sec : String) (d : JDict),
        sec ∈ (["casing", "liner", "dp1", "dp2"] : List String) →
        p.lookup sec = some (.dict d) → pipeDictOk d = false →
          (calculate p f).isOk = false) := by
  refine ⟨mkPipeSection_dict_isOk, ?_⟩
  intro p f sec d hsec hlk hbad
  cases hc : calculate p f with
  | error e => rfl
  | ok r =>
    exfalso
    obtain ⟨hwf, -⟩ := calculate_ok_inv p f r hc
    unfold wfPayload at hwf
    simp only [Bool.and_eq_true, and_assoc] at hwf
    obtain ⟨hcas, hlin, hdp1, hdp2, -⟩ := hwf
    simp only [List.mem_cons, List.not_mem_nil, or_false] at hsec
    rcases hsec with h | h | h | h
    · subst h; rw [hlk] at hcas; simp [sectionOk, hbad] at hcas
    · subst h; rw [hlk] at hlin; simp [linerOk, hbad] at hlin
    · subst h; rw [hlk] at hdp1; simp [sectionOk, hbad] at hdp1
    · subst h; rw [hlk] at hdp2; simp [dp2Ok, hbad] at hdp2

/-- A valid request body omitting `dp2` and every `grade`. -/
def sampleRequestRaw : Payload :=
  [("casing", .dict okPipe), ("liner", .dict okPipe), ("dp1", .dict okPipe),
   ("mud", .dict [("ppg", .num 12.5)]),
   ("holeOverlap", .dict [("openHoleId", .num 8.5)])]

/-- C10: the request model requires `casing`, `liner`, `dp1`, `mud` and
`holeOverlap` (omitting any of them is rejected by validation before the
engine runs; only `dp2` — and `grade` inside a pipe section — may be
omitted), and the dumped payload of every validated request carries
explicit `mud` and `holeOverlap` objects, so the engine's defaults for an
entirely absent `mud` or `holeOverlap` structure are unreachable through
the endpoint. -/
theorem boundary_requires_mud_and_holeOverlap :
    (∀ raw : Payload, raw.lookup "mud" = none →
        (parseCalcRequest raw).isOk = false) ∧
      (∀ raw : Payload, raw.lookup "holeOverlap" = none →
        (parseCalcRequest raw).isOk = false) ∧
      (∀ raw : Payload, raw.lookup "casing" = none →
        (parseCalcRequest raw).isOk = false) ∧
      (∀ raw : Payload, raw.lookup "liner" = none →
        (parseCalcRequest raw).isOk = false) ∧
      (∀ raw : Payload, raw.lookup "dp1" = none →
        (parseCalcRequest raw).isOk = false) ∧
      (∀ req : CalcRequest,
        (dumpReq req).lookup "mud" =
            some (.dict [("ppg", .num req.mud.ppg)]) ∧
          (dumpReq req).lookup "holeOverlap" = some (.dict
            [("openHoleId", .num req.holeOverlap.openHoleId),
             ("linerOverlap", .num req.holeOverlap.linerOverlap),
             ("shoeTrackLength", .num req.holeOverlap.shoeTrackLength)])) ∧
      (∀ req : CalcRequest,
        scalarField (dumpReq req) "mud" "ppg" 13.0 = .ok req.mud.ppg ∧
          scalarField (dumpReq req) "holeOverlap" "openHoleId" 8.5 =
            .ok req.holeOverlap.openHoleId ∧
          scalarField (dumpReq req) "holeOverlap" "linerOverlap" 300 =
            .ok req.holeOverlap.linerOverlap ∧
          scalarField (dumpReq req) "holeOverlap" "shoeTrackLength" 200 =
            .ok req.holeOverlap.shoeTrackLength) ∧
      (parseCalcRequest sampleRequestRaw).isOk = true := by
  refine ⟨?_, ?_, ?_, ?_, ?_, ?_, ?_, rfl⟩
  · intro raw h
    unfold parseCalcRequest
    rw [h]
    cases hc : raw.lookup "casing" <;> cases hl : raw.lookup "liner" <;>
      cases hd : raw.lookup "dp1" <;> cases ho : raw.lookup "holeOverlap" <;>
      rfl
  · intro raw h
    unfold parseCalcRequest
    rw [h]
    cases hc : raw.lookup "casing" <;> cases hl : raw.lookup "liner" <;>
      cases hd : raw.lookup "dp1" <;> cases hm : raw.lookup "mud" <;>
      rfl
  · intro raw h
    unfold parseCalcRequest
    rw [h]
    cases hl : raw.lookup "liner" <;> cases hd : raw.lookup "dp1" <;>
      cases hm : raw.lookup "mud" <;> cases ho : raw.lookup "holeOverlap" <;>
      rfl
  · intro raw h
    unfold parseCalcRequest
    rw [h]
    cases hc : raw.lookup "casing" <;> cases hd : raw.lookup "dp1" <;>
      cases hm : raw.lookup "mud" <;> cases ho : raw.lookup "holeOverlap" <;>
      rfl
  · intro raw h
    unfold parseCalcRequest
    rw [h]
    cases hc : raw.lookup "casing" <;> cases hl : raw.lookup "liner" <;>
      cases hm : raw.lookup "mud" <;> cases ho : raw.lookup "holeOverlap" <;>
      rfl
  · intro req
    exact ⟨rfl, rfl⟩
  · intro req
    exact ⟨rfl, rfl, rfl, rfl⟩

end

end LinerCement
